import Mathlib

/-!
# LiveScoreTracker — verification of the score-tracking core

Shallow embedding of the score-tracking logic of the repository:
`extract_score`, `calculate_score_diff` and `process_match` from
`tracking.py` / `main.py` (the two copies are identical), the
`MatchFilter` decision procedure, and the `ActivityTracker` from
`activity.py`.

Modelling conventions:
* Python dicts of raw match records are association lists
  `List (String × Value)` where `Value` covers the JSON-ish values the
  code manipulates (strings, arbitrary-precision integers, nested
  dicts, `None`).  Lookup returns the first binding.
* Python `int(...)` parsing, `str.strip()`, `str.split("-")` and
  truthiness are modelled character-exactly for ASCII input
  (`pyIntChars`, `pyStrip`, `splitDash`); Unicode digits/whitespace are
  out of scope.
* Timestamps (`time.time()`) are modelled as integers; only order and
  differences of timestamps matter to the classification logic.
* Logging is ignored; the notifier is modelled by returning the list of
  notification events that `process_match` emits.
-/

namespace LiveScore

/-- A Python value as far as the score-tracking code inspects it:
a string, an int, a nested dict, or `None`. -/
inductive Value where
  | vstr (s : String)
  | vint (n : Int)
  | vdict (fields : List (String × Value))
  | vnull
deriving Repr

/-- A raw match record: a Python dict, as an association list. -/
abbrev Record := List (String × Value)

/-- Dict lookup (`d[k]` / `k in d`): first binding wins. -/
def rlookup : List (String × Value) → String → Option Value
  | [], _ => none
  | (k, v) :: rest, key => if k = key then some v else rlookup rest key

/-- ASCII model of the whitespace class used by `str.strip()` and by
`int()`'s own stripping. -/
def pyIsSpace (c : Char) : Bool :=
  c = ' ' || c = '\t' || c = '\n' || c = '\x0d' || c = '\x0b' || c = '\x0c'

/-- `str.strip()` on a character list: drop whitespace at both ends. -/
def pyStrip (l : List Char) : List Char :=
  ((l.dropWhile pyIsSpace).reverse.dropWhile pyIsSpace).reverse

/-- Digit sequence with optional single underscores between digits
(the tail of Python's base-10 `int()` grammar), accumulating into
`acc`.  Returns `none` where Python raises `ValueError`. -/
def pyDigitsAux (acc : Nat) : List Char → Option Nat
  | [] => some acc
  | c :: cs =>
    if c.isDigit then pyDigitsAux (acc * 10 + (c.toNat - 48)) cs
    else if c = '_' then
      match cs with
      | c2 :: cs2 =>
        if c2.isDigit then pyDigitsAux (acc * 10 + (c2.toNat - 48)) cs2
        else none
      | [] => none
    else none

/-- Unsigned decimal digit run of Python `int()`: nonempty, starts with
a digit, single underscores allowed between digits. -/
def pyDigits : List Char → Option Nat
  | [] => none
  | c :: cs => if c.isDigit then pyDigitsAux (c.toNat - 48) cs else none

/-- Python `int(s)` for base 10 on a character list: strip whitespace,
optional sign, digit run.  `none` models `ValueError`. -/
def pyIntChars (l : List Char) : Option Int :=
  match pyStrip l with
  | [] => none
  | c :: rest =>
    if c = '-' then (pyDigits rest).map (fun n => -(Int.ofNat n))
    else if c = '+' then (pyDigits rest).map (fun n => Int.ofNat n)
    else (pyDigits (c :: rest)).map (fun n => Int.ofNat n)

/-- Python `s.split("-")` (no maxsplit): split on every dash, keeping
empty parts, as the source's `score.split("-")` does. -/
def splitDash : List Char → List (List Char)
  | [] => [[]]
  | c :: cs =>
    if c = '-' then [] :: splitDash cs
    else
      match splitDash cs with
      | [] => [[c]]
      | p :: ps => (c :: p) :: ps

/-- Python `str(v)` as far as the score code consumes it: strings pass
through, ints print in decimal, `None` prints as `"None"`, and a dict
prints as a braced representation (never numeric, never empty — which
is all the parsing code observes about it). -/
def pyStr : Value → List Char
  | Value.vstr s => s.data
  | Value.vint n => (toString n).data
  | Value.vnull => "None".data
  | Value.vdict _ => ['\x7b', '\x7d']

/-- A score as the code builds it: `{"home": ..., "away": ...}`.
Components are Python ints, hence `Int`. -/
structure Score where
  home : Int
  away : Int
deriving DecidableEq, Repr

/-- `int(str(v).strip() or 0)` with the surrounding
`except ValueError: 0` — the parsing step shared by the `fs_home`,
`home_score` and `scores` fallback branches of `extract_score`. -/
def parseField (v : Value) : Int :=
  let s := pyStrip (pyStr v)
  if s = [] then 0 else (pyIntChars s).getD 0

/-- `match_data.get("score", "0-0")`. -/
def scoreVal (r : Record) : Value :=
  (rlookup r "score").getD (Value.vstr "0-0")

/-- The fallback chain of `extract_score` after the direct `score`
string branch: `fs_home`/`fs_away`, then `home_score`/`away_score`,
then a `scores` dict, then the default `{0, 0}`. -/
def extractFallback (r : Record) : Score :=
  if (rlookup r "fs_home").isSome && (rlookup r "fs_away").isSome then
    { home := parseField ((rlookup r "fs_home").getD (Value.vint 0)),
      away := parseField ((rlookup r "fs_away").getD (Value.vint 0)) }
  else if (rlookup r "home_score").isSome && (rlookup r "away_score").isSome then
    { home := parseField ((rlookup r "home_score").getD (Value.vint 0)),
      away := parseField ((rlookup r "away_score").getD (Value.vint 0)) }
  else
    match rlookup r "scores" with
    | some (Value.vdict fields) =>
      { home := parseField ((rlookup fields "home_score").getD (Value.vint 0)),
        away := parseField ((rlookup fields "away_score").getD (Value.vint 0)) }
    | _ => { home := 0, away := 0 }

/-- `ScoreTracker.extract_score` (tracking.py lines 594-681): the
`score` value — defaulting to the string `"0-0"` when the field is
absent — takes the dash-split branch whenever it is a string
containing `-`; otherwise the fallback chain runs.  Each side of the
split parses with `int(part.strip())`, defaulting to 0 on failure.
The enclosing `except (ValueError, IndexError)` is unreachable: every
`int()` call is individually guarded and a dash-containing string
always splits into at least two parts. -/
def extract_score (r : Record) : Score :=
  match scoreVal r with
  | Value.vstr s =>
    if s.data.contains '-' then
      let parts := splitDash s.data
      { home := (pyIntChars (parts.getD 0 [])).getD 0,
        away := (pyIntChars (parts.getD 1 [])).getD 0 }
    else extractFallback r
  | _ => extractFallback r

/-! ## Generic assoc-list state (Python dict) operations -/

/-- Dict lookup for homogeneous maps (`last_scores`, the activity
timestamp maps). -/
def slookup {α : Type} : List (String × α) → String → Option α
  | [], _ => none
  | (k, v) :: rest, key => if k = key then some v else slookup rest key

/-- Dict assignment `d[k] = v`: replace the binding in place, or append. -/
def supdate {α : Type} : List (String × α) → String → α → List (String × α)
  | [], key, v => [(key, v)]
  | (k, w) :: rest, key, v =>
    if k = key then (key, v) :: rest else (k, w) :: supdate rest key v

/-- Dict deletion `del d[k]`: drop every binding of `key` (dict keys
are unique, so this coincides with deleting the single binding). -/
def sremove {α : Type} : List (String × α) → String → List (String × α)
  | [], _ => []
  | (k, w) :: rest, key =>
    if k = key then sremove rest key else (k, w) :: sremove rest key

/-! ## Match metadata fields and the MatchFilter -/

/-- Python `str.lower()` for ASCII text (`Char.toLower` lowercases
exactly `'A'`-`'Z'`; non-ASCII case mapping is out of scope). -/
def pyLower (s : String) : String :=
  String.mk (s.data.map Char.toLower)

/-- `match.get(k1, match.get(k2, ''))` for string-typed metadata:
a present binding wins even when empty.  Non-string values for these
metadata fields (which would raise at the subsequent `.lower()` in
Python) are outside the model and read as `""`. -/
def getStr2 (r : Record) (k1 k2 : String) : String :=
  match rlookup r k1 with
  | some (Value.vstr s) => s
  | some _ => ""
  | none =>
    match rlookup r k2 with
    | some (Value.vstr s) => s
    | _ => ""

/-- Single-field variant of `getStr2`. -/
def getStr (r : Record) (k : String) : String :=
  match rlookup r k with
  | some (Value.vstr s) => s
  | _ => ""

/-- Python substring containment `needle in hay`. -/
def isSubstr (needle : List Char) : List Char → Bool
  | [] => needle.isEmpty
  | c :: cs => needle.isPrefixOf (c :: cs) || isSubstr needle cs

/-- Portion of `l` after the first occurrence of the sublist `sep`
(`s.split(sep, 1)[1]`); `none` when `sep` does not occur. -/
def afterSub (sep : List Char) : List Char → Option (List Char)
  | [] => if sep = [] then some [] else none
  | c :: cs =>
    if sep.isPrefixOf (c :: cs) then some ((c :: cs).drop sep.length)
    else afterSub sep cs

/-- The league fallback chain shared by `_is_league_match`,
`_is_excluded_league` and the logging paths: `league_name` →
`competition_name` → `league` → split of `event_name`/`description`
on `':'` (prefix) or `' - '` (suffix); empty when nothing matches. -/
def leagueRaw (r : Record) : String :=
  let league := getStr r "league_name"
  let league := if league = "" then getStr r "competition_name" else league
  let league := if league = "" then getStr r "league" else league
  if league = "" then
    let event_name := getStr2 r "event_name" "description"
    if event_name ≠ "" then
      if event_name.data.contains ':' then
        String.mk (pyStrip (event_name.data.takeWhile (fun c => c ≠ ':')))
      else
        match afterSub " - ".data event_name.data with
        | some rest => String.mk (pyStrip rest)
        | none => ""
    else ""
  else league

/-- `log_filtering_info`'s league value: the chain with the
`"Other Competition"` default. -/
def leagueDefaulted (r : Record) : String :=
  if leagueRaw r = "" then "Other Competition" else leagueRaw r

/-- Does any of the (lowercase) keywords occur in `s`
(`any(k in s for k in keys)`)? -/
def anyInfix (keys : List String) (s : String) : Bool :=
  keys.any (fun k => isSubstr k.data s.data)

/-- The full sport derivation chain of `log_filtering_info` (tracking.py
lines 515-536, identical in `should_track_match`'s tracked-by-id branch
and the display paths): `sport_name` → `sport` → `category_name` →
`category` → keyword inference from the (defaulted) league text →
`"Other Sport"`. -/
def sportChain (r : Record) : String :=
  let sport := getStr2 r "sport_name" "sport"
  let sport := if sport = "" then getStr2 r "category_name" "category" else sport
  if sport = "" then
    let league_lower := pyLower (leagueDefaulted r)
    if anyInfix ["soccer", "football", "premier", "la liga", "bundesliga", "serie a"] league_lower then "Soccer"
    else if anyInfix ["nba", "basketball", "ncaa"] league_lower then "Basketball"
    else if anyInfix ["nhl", "hockey", "ice"] league_lower then "Hockey"
    else if anyInfix ["tennis", "atp", "wta"] league_lower then "Tennis"
    else if anyInfix ["baseball", "mlb"] league_lower then "Baseball"
    else if anyInfix ["nfl", "american football"] league_lower then "American Football"
    else "Other Sport"
  else sport

/-- The configuration fields the filter and the notification decision
read (main.py `Config`; the API/retry/cache fields play no role here).
`sports = none` models Python `None` ("track all sports"); the
interactive configuration produces either `None` or a list with at
least one sport. -/
structure Config where
  notification_threshold : Int
  sports : Option (List String)
  tracked_teams : List String
  tracked_leagues : List String
  tracked_match_ids : List String
  exclude_teams : List String
  exclude_leagues : List String
  track_all_matches : Bool

/-- `MatchFilter.__init__`: sports lowercased, `None` preserved. -/
def trackedSportsOf (cfg : Config) : Option (List String) :=
  cfg.sports.map (List.map pyLower)

/-- `str(match.get('id', ''))`. -/
def matchIdOf (r : Record) : String :=
  match rlookup r "id" with
  | some v => String.mk (pyStr v)
  | none => ""

/-- `MatchFilter._is_tracked_sport` (tracking.py lines 369-379): the
sport is read from `sport_name` falling back to `sport` only — none of
the `category`/keyword fallbacks — and membership is checked in the
lowercased allow-list; `None` tracks every sport. -/
def isTrackedSport (cfg : Config) (r : Record) : Bool :=
  match trackedSportsOf cfg with
  | none => true
  | some sports => sports.contains (pyLower (getStr2 r "sport_name" "sport"))

/-- `MatchFilter._is_team_match`: a tracked team name occurring as a
substring of either lowercased team name. -/
def isTeamMatch (cfg : Config) (r : Record) : Bool :=
  let home := pyLower (getStr2 r "home_name" "home")
  let away := pyLower (getStr2 r "away_name" "away")
  (cfg.tracked_teams.map pyLower).any
    (fun t => isSubstr t.data home.data || isSubstr t.data away.data)

/-- `MatchFilter._is_league_match`: a tracked league occurring as a
substring of the lowercased chain-derived league. -/
def isLeagueMatch (cfg : Config) (r : Record) : Bool :=
  (cfg.tracked_leagues.map pyLower).any
    (fun tl => isSubstr tl.data (pyLower (leagueRaw r)).data)

/-- `MatchFilter._is_excluded_team`. -/
def isExcludedTeam (cfg : Config) (r : Record) : Bool :=
  if cfg.exclude_teams = [] then false
  else
    let home := pyLower (getStr2 r "home_name" "home")
    let away := pyLower (getStr2 r "away_name" "away")
    (cfg.exclude_teams.map pyLower).any
      (fun t => isSubstr t.data home.data || isSubstr t.data away.data)

/-- `MatchFilter._is_excluded_league`. -/
def isExcludedLeague (cfg : Config) (r : Record) : Bool :=
  if cfg.exclude_leagues = [] then false
  else
    (cfg.exclude_leagues.map pyLower).any
      (fun el => isSubstr el.data (pyLower (leagueRaw r)).data)

/-- `MatchFilter.should_track_match` (tracking.py lines 381-479) as a
decision procedure: sport check first, then the explicit id list (whose
branch body only logs and caches display metadata), then exclusions,
then `track_all_matches`, then team/league inclusion. -/
def should_track_match (cfg : Config) (r : Record) : Bool :=
  if !(isTrackedSport cfg r) then false
  else if cfg.tracked_match_ids.contains (matchIdOf r) then true
  else if isExcludedTeam cfg r || isExcludedLeague cfg r then false
  else if cfg.track_all_matches then true
  else if isTeamMatch cfg r || isLeagueMatch cfg r then true
  else false

/-! ## ScoreTracker.process_match -/

/-- A `send_notification` event with its payload. -/
structure Notification where
  matchData : Record
  scoreDiff : Int
  previousScore : Score
  currentScore : Score

/-- The mutable tracker state `self.last_scores`. -/
structure TrackerState where
  lastScores : List (String × Score)

/-- `ScoreTracker.calculate_score_diff` (tracking.py lines 684-688). -/
def calculate_score_diff (prev curr : Score) : Int :=
  (curr.home + curr.away) - (prev.home + prev.away)

/-- `ScoreTracker.process_match` (tracking.py lines 690-737): filter,
extract, notify when a previous entry exists and the diff meets the
threshold, then unconditionally overwrite `last_scores[match_id]`.
Logging (including `log_filtering_info`, which does not affect the
decision) is dropped; emitted notifications are returned. -/
def process_match (cfg : Config) (st : TrackerState) (matchId : String)
    (matchData : Record) : TrackerState × List Notification :=
  if !(should_track_match cfg matchData) then (st, [])
  else
    let currentScore := extract_score matchData
    let notifs :=
      match slookup st.lastScores matchId with
      | some previousScore =>
        let score_diff := calculate_score_diff previousScore currentScore
        if score_diff ≥ cfg.notification_threshold then
          [{ matchData := matchData, scoreDiff := score_diff,
             previousScore := previousScore, currentScore := currentScore }]
        else []
      | none => []
    ({ lastScores := supdate st.lastScores matchId currentScore }, notifs)

/-! ## ActivityTracker (activity.py) -/

/-- `ActivityTracker` state: the two timestamp maps and the duration
settings (`__init__` sets 300 and 1200 seconds). -/
structure ActivityTracker where
  score_change_times : List (String × Int)
  zero_score_start_times : List (String × Int)
  hot_duration : Int
  cold_duration : Int
deriving Repr

/-- `ActivityTracker.__init__`. -/
def ActivityTracker.init : ActivityTracker :=
  { score_change_times := [], zero_score_start_times := [],
    hot_duration := 300, cold_duration := 1200 }

/-- `ActivityTracker.record_score_change` (activity.py lines 20-29):
stamp the score-change time and drop any zero-score timer. -/
def record_score_change (a : ActivityTracker) (matchId : String) (now : Int) :
    ActivityTracker :=
  { a with score_change_times := supdate a.score_change_times matchId now,
           zero_score_start_times := sremove a.zero_score_start_times matchId }

/-- `ActivityTracker.record_zero_score` (activity.py lines 31-39). -/
def record_zero_score (a : ActivityTracker) (matchId : String) (s : Score)
    (now : Int) : ActivityTracker :=
  if s.home + s.away = 0 && (slookup a.zero_score_start_times matchId).isNone then
    { a with zero_score_start_times := supdate a.zero_score_start_times matchId now }
  else a

/-- `ActivityTracker.remove_match` (activity.py lines 41-49). -/
def remove_match (a : ActivityTracker) (matchId : String) : ActivityTracker :=
  { a with score_change_times := sremove a.score_change_times matchId,
           zero_score_start_times := sremove a.zero_score_start_times matchId }

/-- `ActivityTracker.get_activity` (activity.py lines 51-83): return
`"H"` early on a fresh score change; at a zero total start the
zero-score timer lazily and report `"C"` once it exceeds
`cold_duration`; at a nonzero total clear a stale timer; default
`"O"`.  Returns the label together with the updated state. -/
def get_activity (a : ActivityTracker) (matchId : String)
    (current_score : Score) (now : Int) : String × ActivityTracker :=
  let isHot :=
    match slookup a.score_change_times matchId with
    | some t => decide (now - t < a.hot_duration)
    | none => false
  if isHot then ("H", a)
  else
    let total := current_score.home + current_score.away
    if total = 0 then
      match slookup a.zero_score_start_times matchId with
      | some t0 =>
        if now - t0 ≥ a.cold_duration then ("C", a) else ("O", a)
      | none =>
        let a' := { a with
          zero_score_start_times := supdate a.zero_score_start_times matchId now }
        if now - now ≥ a.cold_duration then ("C", a') else ("O", a')
    else
      match slookup a.zero_score_start_times matchId with
      | some _ =>
        ("O", { a with zero_score_start_times := sremove a.zero_score_start_times matchId })
      | none => ("O", a)

/-- Processing step on the combined system state.  The source's
`process_match` never references the `ActivityTracker` — `activity.py`
is imported and called from no processing path in the repository — so
the activity component is carried through unchanged. -/
def process_match_full (cfg : Config) (st : TrackerState) (act : ActivityTracker)
    (matchId : String) (matchData : Record) :
    TrackerState × ActivityTracker × List Notification :=
  let res := process_match cfg st matchId matchData
  (res.1, act, res.2)

/-! ## Assoc-list lemmas -/

theorem slookup_supdate_self {α : Type} (l : List (String × α)) (k : String) (v : α) :
    slookup (supdate l k v) k = some v := by
  induction l with
  | nil => simp [supdate, slookup]
  | cons hd tl ih =>
    obtain ⟨k', w⟩ := hd
    by_cases h : k' = k
    · simp [supdate, slookup, h]
    · simp [supdate, slookup, h, ih]

theorem slookup_sremove_self {α : Type} (l : List (String × α)) (k : String) :
    slookup (sremove l k) k = none := by
  induction l with
  | nil => simp [sremove, slookup]
  | cons hd tl ih =>
    obtain ⟨k', w⟩ := hd
    by_cases h : k' = k
    · simp [sremove, h, ih]
    · simp [sremove, slookup, h, ih]

/-! ## Activity-tracker claims -/

/-- C10: `get_activity` never modifies the score-change (Hot) timer
map — for every input state `score_change_times` is identical before
and after the call (it may only insert into or delete from the
zero-score map); `record_zero_score` likewise leaves it unchanged, so
among the tracker's operations only `record_score_change` and
`remove_match` ever change it. -/
theorem C10_get_activity_hot_map_frame (a : ActivityTracker) (matchId : String)
    (s : Score) (now : Int) :
    (get_activity a matchId s now).2.score_change_times = a.score_change_times ∧
    (record_zero_score a matchId s now).score_change_times = a.score_change_times := by
  constructor
  · unfold get_activity
    rcases h1 : slookup a.score_change_times matchId with _ | t <;>
      rcases h2 : slookup a.zero_score_start_times matchId with _ | t0 <;>
        simp [h1, h2] <;> split_ifs <;> rfl
  · unfold record_zero_score
    split_ifs <;> rfl

/-- C9: classification is idempotent — calling `get_activity` twice in
immediate succession (same current time, no intervening score change
or removal) yields the same label both times, even though the first
call may lazily start or clear the zero-score timer. -/
theorem C9_get_activity_idempotent (a : ActivityTracker) (matchId : String)
    (s : Score) (now : Int) :
    (get_activity (get_activity a matchId s now).2 matchId s now).1 =
      (get_activity a matchId s now).1 := by
  unfold get_activity
  rcases h1 : slookup a.score_change_times matchId with _ | t <;>
    rcases h2 : slookup a.zero_score_start_times matchId with _ | t0 <;>
      by_cases h0 : s.home + s.away = 0 <;>
        simp [h1, h2, h0, slookup_supdate_self, slookup_sremove_self] <;>
          split_ifs <;>
            (try rfl) <;>
              simp_all [slookup_supdate_self, slookup_sremove_self] <;>
                (try omega) <;>
                  split_ifs <;> (try rfl) <;> omega

/-- C4 counterexample: the claimed invariant — after any observation
of a nonzero total the match holds no `zero_score_since`, for every
prior state including one with a recent score-change timestamp — fails:
with a score-change stamp at time 0 and a zero-score stamp at time 0,
observing the nonzero score 1-0 at time 0 returns Hot early and leaves
the zero-score stamp in place. -/
theorem C4_counterexample :
    ((1 : Int) + 0 ≠ 0) ∧
    (get_activity ⟨[("m", 0)], [("m", 0)], 300, 1200⟩ "m" ⟨1, 0⟩ 0).1 = "H" ∧
    slookup (get_activity ⟨[("m", 0)], [("m", 0)], 300, 1200⟩ "m" ⟨1, 0⟩ 0).2.zero_score_start_times "m"
      = some 0 := by
  refine ⟨by decide, by decide, by decide⟩

/-- C4 (amended): after an observation of a nonzero total score the
match holds no `zero_score_since` — provided the observation does not return
Hot early, i.e. provided any score-change timestamp for the match is
at least `hot_duration` old.  (When a fresh score-change stamp exists
`get_activity` returns `"H"` before the clearing code runs and a stale
timer may persist.) -/
theorem C4_amended_nonzero_clears (a : ActivityTracker) (matchId : String)
    (s : Score) (now : Int) (hnz : s.home + s.away ≠ 0)
    (hstale : ∀ t, slookup a.score_change_times matchId = some t →
      a.hot_duration ≤ now - t) :
    slookup (get_activity a matchId s now).2.zero_score_start_times matchId = none := by
  unfold get_activity
  rcases h1 : slookup a.score_change_times matchId with _ | t <;>
    rcases h2 : slookup a.zero_score_start_times matchId with _ | t0
  · simp [h1, h2, hnz]
  · simp [h1, h2, hnz, slookup_sremove_self]
  · have hc := hstale t h1
    simp [h1, h2, hnz, show ¬(now - t < a.hot_duration) from not_lt.mpr hc]
  · have hc := hstale t h1
    simp [h1, h2, hnz, slookup_sremove_self,
      show ¬(now - t < a.hot_duration) from not_lt.mpr hc]

/-- Witness for the amended C4 at a concrete input. -/
theorem C4_amended_witness :
    ((1 : Int) + 0 ≠ 0) ∧
    slookup (get_activity ⟨[("m", 0)], [("m", 5)], 300, 1200⟩ "m" ⟨1, 0⟩ 300).2.zero_score_start_times "m"
      = none := by
  refine ⟨by decide, C4_amended_nonzero_clears _ "m" ⟨1, 0⟩ 300 (by decide) ?_⟩
  intro t ht
  simp [slookup] at ht
  subst ht
  decide

/-! ## Processing claims -/

/-- A minimal track-everything configuration: threshold 2 (the Config
default), no sport allow-list, no team/league/id lists,
`track_all_matches` on. -/
def cfgTrackAll : Config :=
  { notification_threshold := 2, sports := none, tracked_teams := [],
    tracked_leagues := [], tracked_match_ids := [], exclude_teams := [],
    exclude_leagues := [], track_all_matches := true }

/-- C3 counterexample: a record accepted by the filter, with a prior
entry for `"m"` and a positive diff (0-0 → 1-0), leaves the Activity
Tracker exactly as it was — no score change is recorded
(`score_change_times` stays empty) and the match classifies `"O"`,
not Hot, immediately afterwards. -/
theorem C3_counterexample :
    should_track_match cfgTrackAll [("score", Value.vstr "1-0")] = true ∧
    slookup (TrackerState.mk [("m", ⟨0, 0⟩)]).lastScores "m" = some ⟨0, 0⟩ ∧
    calculate_score_diff ⟨0, 0⟩ (extract_score [("score", Value.vstr "1-0")]) > 0 ∧
    (process_match_full cfgTrackAll (TrackerState.mk [("m", ⟨0, 0⟩)])
        ActivityTracker.init "m" [("score", Value.vstr "1-0")]).2.1.score_change_times = [] ∧
    (get_activity
        (process_match_full cfgTrackAll (TrackerState.mk [("m", ⟨0, 0⟩)])
          ActivityTracker.init "m" [("score", Value.vstr "1-0")]).2.1
        "m" (extract_score [("score", Value.vstr "1-0")]) 0).1 = "O" := by
  refine ⟨by decide, by decide, by decide, by decide, by decide⟩

/-- C3 (amended): processing a record never records anything in the
Activity Tracker — `process_match` does not invoke it, so the activity
component of the system state is unchanged even when the diff is
positive.  A direct call to `record_score_change` (which processing
never makes) would set the match's score-change time to the current
time, after which the match classifies Hot, whenever `hot_duration`
is positive. -/
theorem C3_amended_no_activity_recording (cfg : Config) (st : TrackerState)
    (act a : ActivityTracker) (i matchId : String) (r : Record) (s : Score)
    (now : Int) (hhot : 0 < a.hot_duration) :
    (process_match_full cfg st act i r).2.1 = act ∧
    slookup (record_score_change a matchId now).score_change_times matchId = some now ∧
    (get_activity (record_score_change a matchId now) matchId s now).1 = "H" := by
  refine ⟨rfl, slookup_supdate_self _ _ _, ?_⟩
  unfold get_activity record_score_change
  simp [slookup_supdate_self, hhot, show now - now < a.hot_duration by omega]

/-- Witness for the amended C3 at a concrete input. -/
theorem C3_amended_witness :
    (0 : Int) < ActivityTracker.init.hot_duration ∧
    (process_match_full cfgTrackAll (TrackerState.mk []) ActivityTracker.init
        "m" [("score", Value.vstr "1-0")]).2.1 = ActivityTracker.init ∧
    slookup (record_score_change ActivityTracker.init "m" 7).score_change_times "m" = some 7 ∧
    (get_activity (record_score_change ActivityTracker.init "m" 7) "m" ⟨1, 0⟩ 7).1 = "H" :=
  ⟨by decide,
    (C3_amended_no_activity_recording cfgTrackAll (TrackerState.mk [])
      ActivityTracker.init ActivityTracker.init "m" "m"
      [("score", Value.vstr "1-0")] ⟨1, 0⟩ 7 (by decide)).1,
    (C3_amended_no_activity_recording cfgTrackAll (TrackerState.mk [])
      ActivityTracker.init ActivityTracker.init "m" "m"
      [("score", Value.vstr "1-0")] ⟨1, 0⟩ 7 (by decide)).2.1,
    (C3_amended_no_activity_recording cfgTrackAll (TrackerState.mk [])
      ActivityTracker.init ActivityTracker.init "m" "m"
      [("score", Value.vstr "1-0")] ⟨1, 0⟩ 7 (by decide)).2.2⟩

/-- C1: for a record the Match Filter accepts, when the identity has a
prior entry a notification event carrying the raw record, the diff
(`calculate_score_diff prev curr` is literally
`(curr.home + curr.away) - (prev.home + prev.away)`), the previous
score and the current score is emitted iff the diff meets or exceeds
`notification_threshold`; when the identity has no prior entry no
notification is emitted. -/
theorem C1_notification_iff (cfg : Config) (st : TrackerState) (i : String)
    (r : Record) (hacc : should_track_match cfg r = true) :
    (∀ prev, slookup st.lastScores i = some prev →
      (process_match cfg st i r).2 =
        if calculate_score_diff prev (extract_score r) ≥ cfg.notification_threshold then
          [{ matchData := r,
             scoreDiff := calculate_score_diff prev (extract_score r),
             previousScore := prev, currentScore := extract_score r }]
        else []) ∧
    (slookup st.lastScores i = none → (process_match cfg st i r).2 = []) := by
  constructor
  · intro prev hp
    unfold process_match
    simp [hacc, hp]
  · intro hp
    unfold process_match
    simp [hacc, hp]

/-- Witness for C1 at a concrete input on both sides of the threshold:
prior entry 0-0, current 2-1, diff 3 ≥ threshold 2 emits exactly one
event; no prior entry emits none. -/
theorem C1_notification_iff_witness :
    should_track_match cfgTrackAll [("score", Value.vstr "2-1")] = true ∧
    (process_match cfgTrackAll (TrackerState.mk [("n", ⟨0, 0⟩)]) "n"
        [("score", Value.vstr "2-1")]).2 =
      (if calculate_score_diff ⟨0, 0⟩ (extract_score [("score", Value.vstr "2-1")]) ≥
          cfgTrackAll.notification_threshold then
        [{ matchData := [("score", Value.vstr "2-1")],
           scoreDiff := calculate_score_diff ⟨0, 0⟩ (extract_score [("score", Value.vstr "2-1")]),
           previousScore := ⟨0, 0⟩,
           currentScore := extract_score [("score", Value.vstr "2-1")] }]
      else []) ∧
    (process_match cfgTrackAll (TrackerState.mk [("n", ⟨0, 0⟩)]) "q"
        [("score", Value.vstr "2-1")]).2 = [] :=
  ⟨by decide,
    (C1_notification_iff cfgTrackAll (TrackerState.mk [("n", ⟨0, 0⟩)]) "n"
      [("score", Value.vstr "2-1")] (by decide)).1 ⟨0, 0⟩ (by decide),
    (C1_notification_iff cfgTrackAll (TrackerState.mk [("n", ⟨0, 0⟩)]) "q"
      [("score", Value.vstr "2-1")] (by decide)).2 (by decide)⟩

/-- C5: for a record the Match Filter accepts, processing always ends
with the last-known-score table mapping the identity to the extracted
current score; and a diff below the threshold (in particular any
negative diff from a score decrease) emits no notification — the
overwrite silently absorbs it. -/
theorem C5_unconditional_overwrite (cfg : Config) (st : TrackerState)
    (i : String) (r : Record) (hacc : should_track_match cfg r = true) :
    slookup (process_match cfg st i r).1.lastScores i = some (extract_score r) ∧
    (∀ prev, slookup st.lastScores i = some prev →
      calculate_score_diff prev (extract_score r) < cfg.notification_threshold →
      (process_match cfg st i r).2 = []) := by
  constructor
  · unfold process_match
    simp [hacc, slookup_supdate_self]
  · intro prev hp hlt
    unfold process_match
    simp [hacc, hp, not_le.mpr hlt]

/-- Witness for C5 at a concrete input with a negative diff: prior
entry 2-2, current 1-0, diff -3 — no notification, and the table ends
mapping the identity to 1-0. -/
theorem C5_unconditional_overwrite_witness :
    should_track_match cfgTrackAll [("score", Value.vstr "1-0")] = true ∧
    calculate_score_diff ⟨2, 2⟩ (extract_score [("score", Value.vstr "1-0")]) <
      cfgTrackAll.notification_threshold ∧
    slookup (process_match cfgTrackAll (TrackerState.mk [("p", ⟨2, 2⟩)]) "p"
        [("score", Value.vstr "1-0")]).1.lastScores "p" =
      some (extract_score [("score", Value.vstr "1-0")]) ∧
    (process_match cfgTrackAll (TrackerState.mk [("p", ⟨2, 2⟩)]) "p"
        [("score", Value.vstr "1-0")]).2 = [] :=
  ⟨by decide, by decide,
    (C5_unconditional_overwrite cfgTrackAll (TrackerState.mk [("p", ⟨2, 2⟩)]) "p"
      [("score", Value.vstr "1-0")] (by decide)).1,
    (C5_unconditional_overwrite cfgTrackAll (TrackerState.mk [("p", ⟨2, 2⟩)]) "p"
      [("score", Value.vstr "1-0")] (by decide)).2 ⟨2, 2⟩ (by decide) (by decide)⟩

/-! ## String-parsing lemmas for the extractor claims -/

/-- One step of decimal accumulation. -/
def digitStep (a : Nat) (c : Char) : Nat := a * 10 + (c.toNat - 48)

/-- The numeric value denoted by a digit string. -/
def digitsVal (ds : List Char) : Nat := ds.foldl digitStep 0

/-- `s` is a decimal numeral for `n` with optional surrounding
whitespace: whitespace, a nonempty run of ASCII digits of value `n`,
whitespace. -/
def IsWsNumeral (s : List Char) (n : Nat) : Prop :=
  ∃ w1 ds w2, s = w1 ++ ds ++ w2 ∧ (∀ c ∈ w1, pyIsSpace c = true) ∧
    (∀ c ∈ w2, pyIsSpace c = true) ∧ ds ≠ [] ∧
    (∀ c ∈ ds, c.isDigit = true) ∧ digitsVal ds = n

theorem pyIsSpace_of_eq {c : Char} (h : pyIsSpace c = true) :
    c = ' ' ∨ c = '\t' ∨ c = '\n' ∨ c = '\x0d' ∨ c = '\x0b' ∨ c = '\x0c' := by
  simpa [pyIsSpace, or_assoc] using h

theorem space_ne_dash {c : Char} (h : pyIsSpace c = true) : c ≠ '-' := by
  rcases pyIsSpace_of_eq h with h' | h' | h' | h' | h' | h' <;> subst h' <;> decide

theorem digit_ne_dash {c : Char} (h : c.isDigit = true) : c ≠ '-' := by
  intro he; subst he; exact absurd h (by decide)

theorem digit_ne_plus {c : Char} (h : c.isDigit = true) : c ≠ '+' := by
  intro he; subst he; exact absurd h (by decide)

theorem digit_not_space {c : Char} (h : c.isDigit = true) : pyIsSpace c = false := by
  by_contra hc
  have hc' : pyIsSpace c = true := by simpa using hc
  rcases pyIsSpace_of_eq hc' with h' | h' | h' | h' | h' | h' <;> subst h' <;>
    exact absurd h (by decide)

theorem mem_dropWhile {p : Char → Bool} {c : Char} {l : List Char}
    (h : c ∈ l.dropWhile p) : c ∈ l := by
  induction l with
  | nil => simp at h
  | cons a l ih =>
    rw [List.dropWhile_cons] at h
    by_cases hp : p a
    · simp only [hp, if_true] at h
      exact List.mem_cons_of_mem _ (ih h)
    · simpa [hp] using h

theorem mem_pyStrip {c : Char} {l : List Char} (h : c ∈ pyStrip l) : c ∈ l := by
  unfold pyStrip at h
  rw [List.mem_reverse] at h
  have h2 := mem_dropWhile h
  rw [List.mem_reverse] at h2
  exact mem_dropWhile h2

theorem dropWhile_append_of_all {p : Char → Bool} {w l : List Char}
    (hw : ∀ c ∈ w, p c = true) : (w ++ l).dropWhile p = l.dropWhile p := by
  induction w with
  | nil => rfl
  | cons a w ih =>
    simp only [List.cons_append, List.dropWhile_cons,
      hw a (List.mem_cons_self _ _), if_true]
    exact ih (fun c hc => hw c (List.mem_cons_of_mem _ hc))

theorem dropWhile_eq_self_of_all_neg {p : Char → Bool} {l : List Char}
    (h : ∀ c ∈ l, p c = false) : l.dropWhile p = l := by
  cases l with
  | nil => rfl
  | cons a l => simp [List.dropWhile_cons, h a (List.mem_cons_self _ _)]

theorem pyStrip_ws_digits {w1 ds w2 : List Char}
    (hw1 : ∀ c ∈ w1, pyIsSpace c = true) (hw2 : ∀ c ∈ w2, pyIsSpace c = true)
    (hne : ds ≠ []) (hds : ∀ c ∈ ds, c.isDigit = true) :
    pyStrip (w1 ++ ds ++ w2) = ds := by
  unfold pyStrip
  rw [List.append_assoc, dropWhile_append_of_all hw1]
  cases ds with
  | nil => exact absurd rfl hne
  | cons d ds' =>
    rw [List.cons_append, List.dropWhile_cons]
    simp only [digit_not_space (hds d (List.mem_cons_self _ _)),
      Bool.false_eq_true, if_false]
    rw [show d :: (ds' ++ w2) = (d :: ds') ++ w2 from (List.cons_append _ _ _).symm,
      List.reverse_append,
      dropWhile_append_of_all (fun c hc => hw2 c (List.mem_reverse.mp hc)),
      dropWhile_eq_self_of_all_neg
        (fun c hc => digit_not_space (hds c (List.mem_reverse.mp hc))),
      List.reverse_reverse]

theorem pyDigitsAux_all_digits (ds : List Char) (acc : Nat)
    (h : ∀ c ∈ ds, c.isDigit = true) :
    pyDigitsAux acc ds = some (ds.foldl digitStep acc) := by
  induction ds generalizing acc with
  | nil => rfl
  | cons c cs ih =>
    rw [List.foldl_cons]
    unfold pyDigitsAux
    simp only [h c (List.mem_cons_self _ _), if_true]
    exact ih _ (fun c' hc' => h c' (List.mem_cons_of_mem _ hc'))

theorem pyDigits_all_digits (ds : List Char) (hne : ds ≠ [])
    (h : ∀ c ∈ ds, c.isDigit = true) :
    pyDigits ds = some (digitsVal ds) := by
  cases ds with
  | nil => exact absurd rfl hne
  | cons d ds' =>
    unfold pyDigits
    simp only [h d (List.mem_cons_self _ _), if_true]
    rw [pyDigitsAux_all_digits ds' _ (fun c hc => h c (List.mem_cons_of_mem _ hc))]
    unfold digitsVal
    rw [List.foldl_cons]
    unfold digitStep
    rw [Nat.zero_mul, Nat.zero_add]

theorem pyIntChars_eq_of_strip_cons {l : List Char} {c : Char} {rest : List Char}
    (h : pyStrip l = c :: rest) :
    pyIntChars l =
      if c = '-' then (pyDigits rest).map (fun n => -(Int.ofNat n))
      else if c = '+' then (pyDigits rest).map (fun n => Int.ofNat n)
      else (pyDigits (c :: rest)).map (fun n => Int.ofNat n) := by
  unfold pyIntChars
  rw [h]

theorem pyIntChars_wsnumeral {s : List Char} {n : Nat} (h : IsWsNumeral s n) :
    pyIntChars s = some (n : Int) := by
  obtain ⟨w1, ds, w2, hs, hw1, hw2, hne, hds, hval⟩ := h
  subst hs
  have hstrip := pyStrip_ws_digits hw1 hw2 hne hds
  cases ds with
  | nil => exact absurd rfl hne
  | cons d ds' =>
    have hd := hds d (List.mem_cons_self _ _)
    rw [pyIntChars_eq_of_strip_cons hstrip, if_neg (digit_ne_dash hd),
      if_neg (digit_ne_plus hd), pyDigits_all_digits _ hne hds]
    rw [Option.map_some']
    exact congrArg some (congrArg _ hval)

theorem wsnumeral_no_dash {s : List Char} {n : Nat} (h : IsWsNumeral s n) :
    '-' ∉ s := by
  obtain ⟨w1, ds, w2, hs, hw1, hw2, _, hds, _⟩ := h
  subst hs
  intro hmem
  rcases List.mem_append.mp hmem with hmem' | hmem'
  · rcases List.mem_append.mp hmem' with hm | hm
    · exact space_ne_dash (hw1 _ hm) rfl
    · exact digit_ne_dash (hds _ hm) rfl
  · exact space_ne_dash (hw2 _ hmem') rfl

theorem splitDash_ne_nil (l : List Char) : splitDash l ≠ [] := by
  cases l with
  | nil => simp [splitDash]
  | cons c cs =>
    unfold splitDash
    by_cases hc : c = '-'
    · simp [hc]
    · rw [if_neg hc]
      rcases h : splitDash cs with _ | ⟨p, ps⟩ <;> simp

theorem splitDash_no_dash {l : List Char} (h : '-' ∉ l) : splitDash l = [l] := by
  induction l with
  | nil => rfl
  | cons c cs ih =>
    have hc : c ≠ '-' := fun he => h (he ▸ List.mem_cons_self _ _)
    have hcs : '-' ∉ cs := fun hm => h (List.mem_cons_of_mem _ hm)
    unfold splitDash
    simp only [hc, if_false]
    rw [ih hcs]

theorem splitDash_append_dash {l1 l2 : List Char} (h : '-' ∉ l1) :
    splitDash (l1 ++ '-' :: l2) = l1 :: splitDash l2 := by
  induction l1 with
  | nil => simp [splitDash]
  | cons c cs ih =>
    have hc : c ≠ '-' := fun he => h (he ▸ List.mem_cons_self _ _)
    have hcs : '-' ∉ cs := fun hm => h (List.mem_cons_of_mem _ hm)
    rw [List.cons_append]
    conv_lhs => rw [splitDash]
    rw [if_neg hc, ih hcs]

theorem splitDash_parts_no_dash (l : List Char) :
    ∀ p ∈ splitDash l, '-' ∉ p := by
  induction l with
  | nil =>
    intro p hp
    simp only [splitDash, List.mem_singleton] at hp
    subst hp
    exact List.not_mem_nil _
  | cons c cs ih =>
    intro p hp
    unfold splitDash at hp
    by_cases hc : c = '-'
    · simp only [hc, if_true] at hp
      rcases List.mem_cons.mp hp with h' | h'
      · subst h'; exact List.not_mem_nil _
      · exact ih p h'
    · simp only [hc, if_false] at hp
      rcases hq : splitDash cs with _ | ⟨q, qs⟩
      · exact absurd hq (splitDash_ne_nil cs)
      · rw [hq] at hp
        rcases List.mem_cons.mp hp with h' | h'
        · subst h'
          intro hm
          rcases List.mem_cons.mp hm with h'' | h''
          · exact hc h''.symm
          · exact ih q (hq ▸ List.mem_cons_self _ _) h''
        · exact ih p (hq ▸ List.mem_cons_of_mem _ h')

theorem pyIntChars_nonneg_of_no_dash {l : List Char} (hnd : '-' ∉ l) :
    0 ≤ (pyIntChars l).getD 0 := by
  rcases hz : pyIntChars l with _ | z
  · simp
  · suffices h : 0 ≤ z by simpa using h
    rcases hstrip : pyStrip l with _ | ⟨c, rest⟩
    · unfold pyIntChars at hz
      rw [hstrip] at hz
      simp at hz
    · rw [pyIntChars_eq_of_strip_cons hstrip] at hz
      have hc : c ≠ '-' := by
        intro he
        exact hnd (mem_pyStrip (hstrip ▸ he ▸ List.mem_cons_self c rest))
      rw [if_neg hc] at hz
      by_cases hcp : c = '+'
      · rw [if_pos hcp] at hz
        obtain ⟨m, _, hm⟩ := Option.map_eq_some'.mp hz
        have hm' : (m : Int) = z := hm
        omega
      · rw [if_neg hcp] at hz
        obtain ⟨m, _, hm⟩ := Option.map_eq_some'.mp hz
        have hm' : (m : Int) = z := hm
        omega

theorem getD_mem_or_default {α : Type} (l : List α) (i : Nat) (d : α) :
    l.getD i d ∈ l ∨ l.getD i d = d := by
  induction l generalizing i with
  | nil => right; cases i <;> rfl
  | cons a l ih =>
    cases i with
    | zero => left; exact List.mem_cons_self _ _
    | succ j =>
      rcases ih j with h | h
      · left; exact List.mem_cons_of_mem _ (by simpa using h)
      · right; simpa using h

/-! ## Extractor claims -/

/-- C2 counterexample: a record with no `score` field but with both
`fs_home = "2"` and `fs_away = "3"` extracts to `{0, 0}` — not to
`{2, 3}` as the claim states — because the missing `score` field
defaults to the string `"0-0"`, which contains `-` and therefore takes
branch 1. -/
theorem C2_counterexample :
    rlookup [("fs_home", Value.vstr "2"), ("fs_away", Value.vstr "3")] "score" = none ∧
    (rlookup [("fs_home", Value.vstr "2"), ("fs_away", Value.vstr "3")] "fs_home").isSome = true ∧
    (rlookup [("fs_home", Value.vstr "2"), ("fs_away", Value.vstr "3")] "fs_away").isSome = true ∧
    extract_score [("fs_home", Value.vstr "2"), ("fs_away", Value.vstr "3")] = ⟨0, 0⟩ ∧
    extract_score [("fs_home", Value.vstr "2"), ("fs_away", Value.vstr "3")] ≠ ⟨2, 3⟩ := by
  refine ⟨rfl, by decide, by decide, by decide, by decide⟩

/-- C2 (amended): branch 1 applies whenever the `score` value — which
defaults to the string `"0-0"` when the field is absent — is a string
containing `-`.  Hence a record lacking a `score` field always takes
branch 1 and extracts to `{0, 0}` regardless of `fs_home`/`fs_away`,
and the `fs_home`/`fs_away` branch is used exactly when a `score`
field is present but is not a dash-containing string. -/
theorem C2_amended_branch_precedence :
    (∀ r : Record, rlookup r "score" = none → extract_score r = ⟨0, 0⟩) ∧
    (∀ (r : Record) (v : Value), rlookup r "score" = some v →
      (∀ s, v = Value.vstr s → s.data.contains '-' = false) →
      (rlookup r "fs_home").isSome = true → (rlookup r "fs_away").isSome = true →
      extract_score r =
        ⟨parseField ((rlookup r "fs_home").getD (Value.vint 0)),
         parseField ((rlookup r "fs_away").getD (Value.vint 0))⟩) := by
  constructor
  · intro r h
    unfold extract_score scoreVal
    rw [h]
    rfl
  · intro r v hv hnd h1 h2
    have hfb : extractFallback r =
        ⟨parseField ((rlookup r "fs_home").getD (Value.vint 0)),
         parseField ((rlookup r "fs_away").getD (Value.vint 0))⟩ := by
      unfold extractFallback
      rw [h1, h2]
      rfl
    unfold extract_score scoreVal
    rw [hv]
    cases v with
    | vstr s =>
      simp only [Option.getD_some]
      rw [hnd s rfl]
      simpa using hfb
    | vint n => simpa using hfb
    | vdict fields => simpa using hfb
    | vnull => simpa using hfb

/-- Witness for the amended C2: a record with no `score` field gives
`{0, 0}`; a record whose `score` field is the non-string value `5` and
whose `fs_home`/`fs_away` are `"2"`/`"3"` gives `{2, 3}`. -/
theorem C2_amended_witness :
    extract_score ([] : Record) = ⟨0, 0⟩ ∧
    extract_score
      [("score", Value.vint 5), ("fs_home", Value.vstr "2"), ("fs_away", Value.vstr "3")] =
      ⟨2, 3⟩ :=
  ⟨C2_amended_branch_precedence.1 [] rfl,
    C2_amended_branch_precedence.2
      [("score", Value.vint 5), ("fs_home", Value.vstr "2"), ("fs_away", Value.vstr "3")]
      (Value.vint 5) rfl (fun s h => Value.noConfusion h) (by decide) (by decide)⟩

/-- C7 counterexample: the claimed invariant that `extract` always
returns non-negative components fails — a record whose `score` field
is the non-string `5` and whose `fs_home` is `"-1"` extracts to
`{-1, 0}`. -/
theorem C7_counterexample :
    extract_score
      [("score", Value.vint 5), ("fs_home", Value.vstr "-1"), ("fs_away", Value.vstr "0")] =
      ⟨-1, 0⟩ ∧
    ¬(0 ≤ (extract_score
      [("score", Value.vint 5), ("fs_home", Value.vstr "-1"), ("fs_away", Value.vstr "0")]).home) := by
  refine ⟨by decide, by decide⟩

/-- C7 (amended): `extract` is a total function returning a Score with
both components defined for every record shape (totality holds by
construction of the embedding), and any record handled by the
dash-split branch — a `score` value that is a string containing `-`,
including the default for a missing field — yields non-negative
components, because neither side of the first dash can carry a minus
sign; the non-negativity guarantee does not extend to the numeric
fallback fields. -/
theorem C7_amended_branch1_nonneg (r : Record) (s : String)
    (hs : scoreVal r = Value.vstr s) (hd : s.data.contains '-' = true) :
    0 ≤ (extract_score r).home ∧ 0 ≤ (extract_score r).away := by
  unfold extract_score
  rw [hs]
  simp only [hd, if_true]
  have hparts := splitDash_parts_no_dash s.data
  constructor
  · rcases getD_mem_or_default (splitDash s.data) 0 [] with hm | hdef
    · exact pyIntChars_nonneg_of_no_dash (hparts _ hm)
    · rw [hdef]; simp [pyIntChars, pyStrip, pyDigits]
  · rcases getD_mem_or_default (splitDash s.data) 1 [] with hm | hdef
    · exact pyIntChars_nonneg_of_no_dash (hparts _ hm)
    · rw [hdef]; simp [pyIntChars, pyStrip, pyDigits]

/-- Witness for the amended C7 at a concrete input. -/
theorem C7_amended_witness :
    scoreVal [("score", Value.vstr "2-1")] = Value.vstr "2-1" ∧
    ("2-1".data.contains '-' = true) ∧
    0 ≤ (extract_score [("score", Value.vstr "2-1")]).home ∧
    0 ≤ (extract_score [("score", Value.vstr "2-1")]).away :=
  ⟨rfl, by decide,
    (C7_amended_branch1_nonneg [("score", Value.vstr "2-1")] "2-1" rfl (by decide)).1,
    (C7_amended_branch1_nonneg [("score", Value.vstr "2-1")] "2-1" rfl (by decide)).2⟩

/-- C8: a record whose `score` field is a string of the form `"a-b"`
with `a` and `b` decimal numerals carrying optional surrounding
whitespace extracts to `{home := a, away := b}`. -/
theorem C8_dash_string_parses (r : Record) (s : String) (sa sb : List Char)
    (a b : Nat) (hr : rlookup r "score" = some (Value.vstr s))
    (hsplit : s.data = sa ++ '-' :: sb)
    (ha : IsWsNumeral sa a) (hb : IsWsNumeral sb b) :
    extract_score r = ⟨(a : Int), (b : Int)⟩ := by
  have hnda : '-' ∉ sa := wsnumeral_no_dash ha
  have hndb : '-' ∉ sb := wsnumeral_no_dash hb
  have hcontains : s.data.contains '-' = true := by
    rw [hsplit]
    simp
  have hsplitDash : splitDash s.data = [sa, sb] := by
    rw [hsplit, splitDash_append_dash hnda, splitDash_no_dash hndb]
  unfold extract_score scoreVal
  rw [hr]
  simp only [Option.getD_some, hcontains, if_true, hsplitDash]
  have g0 : ([sa, sb] : List (List Char)).getD 0 [] = sa := rfl
  have g1 : ([sa, sb] : List (List Char)).getD 1 [] = sb := rfl
  rw [g0, g1, pyIntChars_wsnumeral ha, pyIntChars_wsnumeral hb]
  rfl

/-- Witness for C8 at the concrete input `" 2 - 10 "`. -/
theorem C8_dash_string_parses_witness :
    extract_score [("score", Value.vstr " 2 - 10 ")] = ⟨2, 10⟩ :=
  C8_dash_string_parses [("score", Value.vstr " 2 - 10 ")] " 2 - 10 "
    " 2 ".data " 10 ".data 2 10 rfl (by decide)
    ⟨[' '], ['2'], [' '], by decide, by decide, by decide, by decide, by decide, by decide⟩
    ⟨[' '], ['1', '0'], [' '], by decide, by decide, by decide, by decide, by decide, by decide⟩

/-! ## Match-filter claims -/

/-- A configuration whose sport allow-list is `["Basketball"]`, with
everything else tracked. -/
def cfgBball : Config :=
  { notification_threshold := 2, sports := some ["Basketball"],
    tracked_teams := [], tracked_leagues := [], tracked_match_ids := [],
    exclude_teams := [], exclude_leagues := [], track_all_matches := true }

/-- C6 counterexample: a record whose sport is derivable only through
the fallback chain (`category_name = "Basketball"`, no
`sport_name`/`sport` field) is rejected at the sport step even though
the chain-derived sport is an allowed member of the allow-list:
`_is_tracked_sport` reads only `sport_name`/`sport` and sees `""`. -/
theorem C6_counterexample :
    pyLower (sportChain [("category_name", Value.vstr "Basketball")]) ∈
      ["Basketball"].map pyLower ∧
    isTrackedSport cfgBball [("category_name", Value.vstr "Basketball")] = false ∧
    should_track_match cfgBball [("category_name", Value.vstr "Basketball")] = false := by
  refine ⟨by decide, by decide, by decide⟩

/-- C6 (amended): the sport step is decisive and first — whenever
`_is_tracked_sport` fails, `should_track_match` rejects; an unset
(`None`) allow-list rejects nothing at this step; and for a configured
allow-list the record is rejected at the sport step iff the sport read
directly from `sport_name`, else `sport`, else `""` (no
`category`/keyword fallback chain), lowercased, is not a member of the
lowercased allow-list. -/
theorem C6_amended_sport_gate (cfg : Config) (r : Record) :
    (isTrackedSport cfg r = false → should_track_match cfg r = false) ∧
    (cfg.sports = none → isTrackedSport cfg r = true) ∧
    (∀ l, cfg.sports = some l →
      (isTrackedSport cfg r = false ↔
        pyLower (getStr2 r "sport_name" "sport") ∉ l.map pyLower)) := by
  refine ⟨?_, ?_, ?_⟩
  · intro h
    unfold should_track_match
    rw [h]
    rfl
  · intro h
    unfold isTrackedSport trackedSportsOf
    rw [h]
    rfl
  · intro l hl
    unfold isTrackedSport trackedSportsOf
    rw [hl]
    simp

/-- Witness for the amended C6 at concrete inputs: a record whose
`sport` field reads `"Curling"` fails the Basketball-only sport step
and is rejected. -/
theorem C6_amended_witness :
    isTrackedSport cfgBball [("sport", Value.vstr "Curling")] = false ∧
    should_track_match cfgBball [("sport", Value.vstr "Curling")] = false ∧
    pyLower (getStr2 [("sport", Value.vstr "Curling")] "sport_name" "sport") ∉
      ["Basketball"].map pyLower :=
  ⟨by decide,
    (C6_amended_sport_gate cfgBball [("sport", Value.vstr "Curling")]).1 (by decide),
    ((C6_amended_sport_gate cfgBball [("sport", Value.vstr "Curling")]).2.2
      ["Basketball"] rfl).mp (by decide)⟩

end LiveScore
